import Mathlib

/-!
Verification of the camera portal request lifecycle of libportal
(src/libportal/camera.c), against the repository's specification.

The C file implements the asynchronous request pattern for
org.freedesktop.portal.Camera: a per-call `AccessCameraCall` struct, a
signal subscription on a derived request object path, the triggering
`AccessCamera` D-Bus call, a cancellation hook, and three callbacks
(`response_received`, `cancelled_cb`, `call_returned`) that deliver the
outcome into a `GTask` and free the struct.

We embed the per-call state and the three callbacks as pure functions on
an explicit `World` record, and the event loop as traces of events with
enabling conditions taken from the GLib/GDBus contract:
  * a D-Bus signal handler is never invoked after
    `g_dbus_connection_signal_unsubscribe` (we track `subscribed`);
  * a GObject signal handler is never invoked after
    `g_signal_handler_disconnect` (we track `connected`);
  * the completion callback of an async `g_dbus_connection_call` fires
    exactly once (we track a `pending` flag in the trace judgment).
Freeing the struct does not erase its fields in the model; instead a
`freed` flag records destruction, and every callback that runs records a
use-after-free (`uaf`) when it dereferences the struct after `freed`.
-/

namespace Camera

/-! ### Request path derivation (camera.c line 176)

`call->request_path = g_strconcat (REQUEST_PATH_PREFIX, call->portal->sender, "/", token, NULL);`

`REQUEST_PATH_PREFIX` and `portal->sender` are defined in
portal-private.h / portal.c, which are not part of the sources here;
they are modelled from the spec. -/

/-- Modelled from the spec: the fixed request-path base string
(`REQUEST_PATH_PREFIX` of portal-private.h, not among the sources).
The spec only uses that it is one fixed string; the literal is the
portal desktop request base path. -/
def REQUEST_PATH_BASE : String := "/org/freedesktop/portal/desktop/request/"

/-- `g_strconcat (REQUEST_PATH_PREFIX, sender, "/", token, NULL)` (camera.c line 176). -/
def requestPath (base sender token : String) : String :=
  base ++ sender ++ "/" ++ token

/-- Modelled from the spec: `portal->sender` is computed at portal
construction (portal.c, not among the sources) from the caller's unique
bus name by stripping the leading character and replacing every `.`
separator with `_`. -/
def sanitizeSender (uniqueName : String) : String :=
  String.mk ((uniqueName.data.drop 1).map (fun c => if c = '.' then '_' else c))

/-- C6: the derived request object path is the concatenation of the fixed
request-path base, the sanitized caller bus name, a `/` separator and the
request token; for bus name `:1.42` and token `portal17` it is the base
followed by `1_42` followed by `/portal17`. -/
theorem C6_request_path_derivation (base token : String) (busName : String) :
    requestPath base (sanitizeSender busName) token
      = base ++ sanitizeSender busName ++ "/" ++ token
    ∧ sanitizeSender ":1.42" = "1_42"
    ∧ requestPath base (sanitizeSender ":1.42") "portal17" = base ++ "1_42" ++ "/portal17" := by
  refine ⟨rfl, by decide, ?_⟩
  have h : sanitizeSender ":1.42" = "1_42" := by decide
  have h2 : ("/" ++ "portal17" : String) = "/portal17" := by decide
  rw [requestPath, h, String.append_assoc, h2]

/-! ### Errors and task outcomes

`GTask` outcomes: `g_task_return_boolean` delivers a boolean,
`g_task_return_error` / `g_task_return_new_error` deliver a `GError`. -/

structure GError where
  domain : String
  code : Nat
  message : String
deriving DecidableEq

/-- The `G_IO_ERROR` error domain. -/
def G_IO_ERROR : String := "g-io-error-quark"

/-- `G_IO_ERROR_FAILED` of `GIOErrorEnum`. -/
def G_IO_ERROR_FAILED : Nat := 0

/-- `G_IO_ERROR_CANCELLED` of `GIOErrorEnum`. -/
def G_IO_ERROR_CANCELLED : Nat := 19

/-- The error built at camera.c line 124. -/
def cameraCancelledError : GError :=
  { domain := G_IO_ERROR, code := G_IO_ERROR_CANCELLED, message := "Camera access canceled" }

/-- The error built at camera.c line 126. -/
def cameraFailedError : GError :=
  { domain := G_IO_ERROR, code := G_IO_ERROR_FAILED, message := "Camera access failed" }

/-- A value delivered into the call's `GTask` (the caller's async result). -/
inductive TaskResult where
  | success (value : Bool)
  | failure (e : GError)
deriving DecidableEq

/-! ### Per-call state

The `AccessCameraCall` struct (camera.c lines 75-81); `portal` and `task`
are reference-counted pointers whose observable content is tracked in
`World` (`delivered`), so the embedded struct keeps the three fields the
callbacks branch on. -/

structure AccessCameraCall where
  signal_id : Nat
  cancelled_id : Nat
  request_path : String
deriving DecidableEq

/-- The world of one in-flight camera-access call: the struct contents,
the runtime registries the GLib contract consults (`subscribed`,
`connected`), destruction (`freed`), and the observable effects
(deliveries into the task, Close calls, release counts, use-after-free). -/
structure World where
  call : AccessCameraCall
  /-- the struct has been `g_free`d (fields above are then stale memory) -/
  freed : Bool
  /-- the D-Bus signal subscription for `response_received` is live -/
  subscribed : Bool
  /-- the `cancelled` handler `cancelled_cb` is connected -/
  connected : Bool
  /-- number of `g_dbus_connection_signal_unsubscribe` calls performed -/
  unsubscribeCount : Nat
  /-- number of `g_signal_handler_disconnect` calls performed -/
  disconnectCount : Nat
  /-- outcomes delivered into the `GTask`, in order -/
  delivered : List TaskResult
  /-- object paths to which a `Close` method call was sent -/
  closeCalls : List String
  /-- some callback dereferenced the struct after it was freed -/
  uaf : Bool
deriving DecidableEq

/-- `access_camera_call_free` (camera.c lines 83-98): unsubscribe if
`signal_id` is set, disconnect the cancelled handler if `cancelled_id`
is set, free the path and the struct, drop the portal and task refs. -/
def access_camera_call_free (w : World) : World :=
  let w := if w.call.signal_id ≠ 0 then
    { w with subscribed := false, unsubscribeCount := w.unsubscribeCount + 1 } else w
  let w := if w.call.cancelled_id ≠ 0 then
    { w with connected := false, disconnectCount := w.disconnectCount + 1 } else w
  { w with freed := true }

/-- The response-code policy of `response_received` (camera.c lines
121-126): `0` returns TRUE into the task, `1` returns the
`G_IO_ERROR_CANCELLED` error, anything else the `G_IO_ERROR_FAILED`
error. -/
def decodeResponse (response : Nat) : TaskResult :=
  if response = 0 then .success true
  else if response = 1 then .failure cameraCancelledError
  else .failure cameraFailedError

/-- `response_received` (camera.c lines 100-129): disconnect the
cancelled handler if present and zero `cancelled_id`, decode the
response code into the task, free the call. -/
def response_received (response : Nat) (w : World) : World :=
  let w := { w with uaf := w.uaf || w.freed }
  let w := if w.call.cancelled_id ≠ 0 then
    { w with connected := false, disconnectCount := w.disconnectCount + 1,
             call := { w.call with cancelled_id := 0 } } else w
  let w := { w with delivered := w.delivered ++ [decodeResponse response] }
  access_camera_call_free w

/-- `cancelled_cb` (camera.c lines 131-149): send a fire-and-forget
`Close` call to the request path (no callback, errors discarded), then
free the call. Note: nothing is returned into the task here. -/
def cancelled_cb (w : World) : World :=
  let w := { w with uaf := w.uaf || w.freed }
  let w := { w with closeCalls := w.closeCalls ++ [w.call.request_path] }
  access_camera_call_free w

/-- `call_returned` (camera.c lines 151-166): finish the `AccessCamera`
call; on a transport error return the error into the task and free the
call, on success do nothing (the outcome arrives via the signal). The
struct is only dereferenced on the error branch. -/
def call_returned (res : Option GError) (w : World) : World :=
  match res with
  | some e =>
      let w := { w with uaf := w.uaf || w.freed }
      let w := { w with delivered := w.delivered ++ [TaskResult.failure e] }
      access_camera_call_free w
  | none => w

/-- The world right after `access_camera` (camera.c lines 168-207) ran:
the request path is derived, the `Response` signal subscription is live
(`signal_id` is the nonzero id returned by
`g_dbus_connection_signal_subscribe`), the cancelled handler is
connected exactly when a cancellable was supplied, and the
`AccessCamera` call has been issued. -/
def initWorld (hasCancellable : Bool) (sender token : String) : World :=
  { call := { signal_id := 1,
              cancelled_id := if hasCancellable then 1 else 0,
              request_path := requestPath REQUEST_PATH_BASE sender token }
    freed := false
    subscribed := true
    connected := hasCancellable
    unsubscribeCount := 0
    disconnectCount := 0
    delivered := []
    closeCalls := []
    uaf := false }

/-! ### Event traces -/

/-- An event dispatched to this call by the GLib main loop: a `Response`
signal on the request path, the cancellable firing, or the completion of
the `AccessCamera` call itself (`none` = reply, `some e` = error). -/
inductive Event where
  | response (code : Nat)
  | cancelled
  | callReturned (res : Option GError)
deriving DecidableEq

/-- Dispatch one event to the corresponding callback. -/
def step (w : World) : Event → World
  | .response code => response_received code w
  | .cancelled => cancelled_cb w
  | .callReturned res => call_returned res w

/-- Run a sequence of events. -/
def run (w : World) (es : List Event) : World := es.foldl step w

/-- `ValidFrom pending w es`: the event sequence `es` can be delivered
by the GLib runtime from world `w`, where `pending` records whether the
`AccessCamera` call is still outstanding. The conditions are the GLib
contract: a D-Bus signal handler only fires while subscribed, a GObject
handler only fires while connected (one `cancelled` emission at most,
enforced by disconnection), and the async call's completion callback
fires at most once. -/
inductive ValidFrom : Bool → World → List Event → Prop where
  | nil (pending : Bool) (w : World) : ValidFrom pending w []
  | response (pending : Bool) (w : World) (code : Nat) (es : List Event) :
      w.subscribed = true →
      ValidFrom pending (response_received code w) es →
      ValidFrom pending w (Event.response code :: es)
  | cancelled (pending : Bool) (w : World) (es : List Event) :
      w.connected = true →
      ValidFrom pending (cancelled_cb w) es →
      ValidFrom pending w (Event.cancelled :: es)
  | callReturned (w : World) (res : Option GError) (es : List Event) :
      ValidFrom false (call_returned res w) es →
      ValidFrom true w (Event.callReturned res :: es)

/-! ### The start path (camera.c lines 168-207 and 223-240) -/

/-- The options dictionary built at camera.c lines 192-193: exactly one
entry, `handle_token` mapped to the request token. -/
def accessCameraOptions (token : String) : List (String × String) :=
  [("handle_token", token)]

/-- One observable action of `access_camera`, in program order. -/
inductive StartAction where
  | computeToken
  | computePath
  | subscribeResponseSignal
  | connectCancelledHandler
  | methodCallAccessCamera (options : List (String × String))
deriving DecidableEq

/-- The straight-line body of `access_camera` (camera.c lines 168-207)
as its sequence of observable actions: compute the token (line 175),
compute the request path (line 176), subscribe to `Response` on that
path (lines 177-186), connect the cancelled handler when a cancellable
was supplied (lines 188-190), and issue the `AccessCamera` method call
with the options dictionary (lines 192-206). -/
def access_camera_actions (hasCancellable : Bool) (token : String) : List StartAction :=
  [.computeToken, .computePath, .subscribeResponseSignal]
    ++ (if hasCancellable then [.connectCancelledHandler] else [])
    ++ [.methodCallAccessCamera (accessCameraOptions token)]

/-- Parent-window information (`XdpParent`). The camera start call
receives it but never reads it, so its content is irrelevant here. -/
structure XdpParent where
  info : String
deriving DecidableEq

/-- `xdp_portal_access_camera` (camera.c lines 223-240): check the
portal precondition, allocate the call, create the task, and run
`access_camera`. The `parent` argument does not occur in the body's
dataflow (it is never passed to `access_camera`), mirrored here by a
binder the right-hand side does not mention. -/
def xdp_portal_access_camera (portalValid : Bool) (_parent : Option XdpParent)
    (hasCancellable : Bool) (sender token : String) :
    Option (World × List StartAction) :=
  if portalValid then
    some (initWorld hasCancellable sender token, access_camera_actions hasCancellable token)
  else none

/-! ### xdp_portal_access_camera_finish (camera.c lines 257-267) -/

/-- The source tag stored on the task (`g_task_set_source_tag`,
camera.c line 237, checked at line 264). -/
inductive SourceTag where
  | accessCameraTag
  | otherTag (name : String)
deriving DecidableEq

structure FinishArgs where
  /-- `XDP_IS_PORTAL (portal)` -/
  portalValid : Bool
  /-- `g_task_is_valid (result, portal)` -/
  taskValid : Bool
  /-- `g_task_get_source_tag (G_TASK (result))` -/
  sourceTag : SourceTag
  /-- the outcome stored in the task by one of the `g_task_return_*` calls -/
  taskOutcome : TaskResult
deriving DecidableEq

structure FinishResult where
  value : Bool
  errorOut : Option GError
  /-- a `g_return_val_if_fail` precondition failed and logged a critical -/
  critical : Bool
deriving DecidableEq

/-- `g_task_propagate_boolean`: the stored boolean on success, FALSE
plus the stored error on failure. -/
def g_task_propagate_boolean : TaskResult → Bool × Option GError
  | .success b => (b, none)
  | .failure e => (false, some e)

/-- `xdp_portal_access_camera_finish` (camera.c lines 257-267): three
`g_return_val_if_fail` guards (portal type, task validity, source tag
identity with `xdp_portal_access_camera`), each returning FALSE loudly
without touching `error`; then propagate the stored outcome. -/
def xdp_portal_access_camera_finish (a : FinishArgs) : FinishResult :=
  if a.portalValid = false then { value := false, errorOut := none, critical := true }
  else if a.taskValid = false then { value := false, errorOut := none, critical := true }
  else if a.sourceTag ≠ SourceTag.accessCameraTag then
    { value := false, errorOut := none, critical := true }
  else
    let r := g_task_propagate_boolean a.taskOutcome
    { value := r.1, errorOut := r.2, critical := false }

/-! ### xdp_portal_open_pipewire_remote_for_camera (camera.c lines 280-315) -/

/-- `g_unix_fd_list_get (fd_list, idx, NULL)`: a duplicate of the
descriptor stored at index `idx` of the out-of-band list, or `-1` when
the index is out of range (the error out-argument is NULL here). -/
def g_unix_fd_list_get (fds : List Int) (idx : Int) : Int :=
  if 0 ≤ idx then fds.getD idx.toNat (-1) else -1

structure PwRemoteResult where
  fd : Int
  /-- `g_warning` was emitted -/
  warned : Bool
deriving DecidableEq

/-- `xdp_portal_open_pipewire_remote_for_camera` (camera.c lines
280-315): one synchronous `OpenPipeWireRemote` call with reply type
`(h)`; `reply` is its result — a transport/broker error or the handle
index `h` into the out-of-band descriptor list `fds`. On a NULL reply
the function warns and returns `-1`; otherwise it resolves the index
against the descriptor list. -/
def xdp_portal_open_pipewire_remote_for_camera (portalValid : Bool)
    (reply : Except GError Int) (fds : List Int) : PwRemoteResult :=
  if portalValid = false then { fd := -1, warned := false }
  else
    match reply with
    | .error _ => { fd := -1, warned := true }
    | .ok idx => { fd := g_unix_fd_list_get fds idx, warned := false }

/-! ### Token generation (camera.c line 175)

`token = g_strdup_printf ("portal%d", g_random_int_range (0, G_MAXINT));`

The token is the string `portal` followed by the decimal rendering of a
random integer drawn from `[0, G_MAXINT)`; nothing enforces that two
concurrent calls draw different integers. -/

/-- `G_MAXINT` (32-bit). -/
def G_MAXINT : Nat := 2147483647

/-- Decimal digits of `n`, most significant first, by fuel-indexed
structural recursion (the digits that `printf %d` renders). -/
def natDecimalAux : Nat → Nat → List Char
  | 0, _ => []
  | fuel + 1, n =>
      if n = 0 then [] else natDecimalAux fuel (n / 10) ++ [Nat.digitChar (n % 10)]

/-- The decimal rendering of a natural number (`%d` for nonnegative
values): `0` renders as `"0"`, otherwise the digit list of
`natDecimalAux`. -/
def natDecimal (n : Nat) : List Char :=
  if n = 0 then ['0'] else natDecimalAux n n

/-- `g_strdup_printf ("portal%d", r)` for the drawn integer `r`. -/
def mkToken (r : Nat) : String := "portal" ++ String.mk (natDecimal r)

/-- Left inverse of the decimal rendering: fold the digit characters
back into a number. -/
def decodeDecimal (l : List Char) : Nat :=
  l.foldl (fun acc c => 10 * acc + (c.toNat - 48)) 0

lemma digitChar_val (d : Nat) (h : d < 10) : (Nat.digitChar d).toNat - 48 = d := by
  interval_cases d <;> decide

lemma natDecimalAux_foldl (f : Nat) : ∀ n acc, n ≤ f →
    List.foldl (fun acc c => 10 * acc + (c.toNat - 48)) acc (natDecimalAux f n)
      = acc * 10 ^ (natDecimalAux f n).length + n := by
  induction f with
  | zero =>
      intro n acc h
      have hn : n = 0 := Nat.le_zero.mp h
      simp [natDecimalAux, hn]
  | succ f ih =>
      intro n acc h
      by_cases hn : n = 0
      · simp [natDecimalAux, hn]
      · have hdiv : n / 10 ≤ f := by
          have := Nat.div_lt_self (Nat.pos_of_ne_zero hn) (by norm_num : 1 < 10)
          omega
        have hmod : n % 10 < 10 := Nat.mod_lt _ (by norm_num)
        simp only [natDecimalAux, hn, if_false, List.foldl_append, List.foldl_cons,
          List.foldl_nil, List.length_append, List.length_cons, List.length_nil]
        rw [ih (n / 10) acc hdiv, digitChar_val _ hmod]
        have hdm : 10 * (n / 10) + n % 10 = n := Nat.div_add_mod n 10
        have hpow : 10 ^ ((natDecimalAux f (n / 10)).length + (0 + 1))
            = 10 ^ (natDecimalAux f (n / 10)).length * 10 := by
          rw [Nat.zero_add, pow_succ]
        rw [hpow]
        ring_nf
        omega

lemma decodeDecimal_natDecimal (n : Nat) : decodeDecimal (natDecimal n) = n := by
  by_cases h : n = 0
  · simp [natDecimal, h, decodeDecimal]
  · have := natDecimalAux_foldl n n 0 (le_refl n)
    simp only [natDecimal, h, if_false, decodeDecimal]
    rw [this]
    simp

lemma natDecimal_injective : Function.Injective natDecimal := by
  intro m n h
  have hm := decodeDecimal_natDecimal m
  rw [h, decodeDecimal_natDecimal] at hm
  exact hm.symm

lemma string_data_append (a b : String) : (a ++ b).data = a.data ++ b.data := rfl

lemma mkToken_injective : Function.Injective mkToken := by
  intro m n h
  apply natDecimal_injective
  have hd := congrArg String.data h
  simp only [mkToken, string_data_append] at hd
  exact congrArg String.data (congrArg String.mk (List.append_cancel_left hd))

lemma requestPath_token_injective (base sender : String) (t₁ t₂ : String)
    (h : requestPath base sender t₁ = requestPath base sender t₂) : t₁ = t₂ := by
  have hd := congrArg String.data h
  simp only [requestPath, string_data_append, List.append_assoc] at hd
  have h1 := List.append_cancel_left (List.append_cancel_left (List.append_cancel_left hd))
  exact congrArg String.mk h1

/-! ### Helper predicates and lemmas shared by the claim theorems -/

/-- Both ownership handles released exactly once and the struct destroyed:
the subscription is gone after exactly one unsubscribe, and the
cancellation link (when one was acquired) is gone after exactly one
disconnect. -/
def handlesReleasedOnce (w : World) (hadCancellable : Bool) : Prop :=
  w.freed = true ∧ w.subscribed = false ∧ w.unsubscribeCount = 1
  ∧ w.connected = false ∧ w.disconnectCount = (if hadCancellable then 1 else 0)

/-- The options dictionary carried by the `AccessCamera` method-call
action, if the action is that call. -/
def sentOptions : StartAction → Option (List (String × String))
  | .methodCallAccessCamera o => some o
  | _ => none

/-! ### The claims -/

/-- C2: the delivered outcome of a completion signal is a function of the
numeric response code alone: `0` delivers TRUE, `1` delivers the distinct
`G_IO_ERROR_CANCELLED` error, every code `≥ 2` delivers the generic
`G_IO_ERROR_FAILED` error. -/
theorem C2_response_code_mapping (w : World) (code : Nat) :
    (response_received code w).delivered = w.delivered ++ [decodeResponse code]
    ∧ decodeResponse 0 = TaskResult.success true
    ∧ decodeResponse 1 = TaskResult.failure cameraCancelledError
    ∧ (2 ≤ code → decodeResponse code = TaskResult.failure cameraFailedError)
    ∧ cameraCancelledError ≠ cameraFailedError := by
  refine ⟨?_, by decide, by decide, ?_, by decide⟩
  · simp only [response_received, access_camera_call_free]
    split <;> split <;> (try split) <;> rfl
  · intro h
    have h0 : code ≠ 0 := by omega
    have h1 : code ≠ 1 := by omega
    simp [decodeResponse, h0, h1]

/-- Witness for C2 at response code 7. -/
theorem C2_response_code_mapping_witness :
    2 ≤ 7
    ∧ (response_received 7 (initWorld true "1_42" "portal17")).delivered
        = [TaskResult.failure cameraFailedError] := by
  refine ⟨by decide, ?_⟩
  have h := C2_response_code_mapping (initWorld true "1_42" "portal17") 7
  rw [h.1, h.2.2.2.1 (by norm_num)]
  decide

/-- C3: in every execution of `access_camera`, the request path is
computed first, the `Response` signal subscription is established next,
and the `AccessCamera` method call is issued last — so the subscription
strictly precedes the call and the path precedes both. -/
theorem C3_subscribe_before_method_call (hasCancellable : Bool) (token : String) :
    ∃ mid : List StartAction,
      access_camera_actions hasCancellable token
        = StartAction.computeToken :: StartAction.computePath ::
            StartAction.subscribeResponseSignal ::
            (mid ++ [StartAction.methodCallAccessCamera (accessCameraOptions token)]) := by
  cases hasCancellable
  · exact ⟨[], rfl⟩
  · exact ⟨[StartAction.connectCancelledHandler], rfl⟩

/-- C5: on each of the three exit paths taken from the live awaiting
state — completion signal, local cancellation, transport failure of the
triggering call — the signal subscription and the cancellation link (when
acquired) are each released exactly once and the per-call state is
destroyed; in particular the transport-failure path still unsubscribes. -/
theorem C5_handles_released_on_every_exit (hc : Bool) (sender token : String)
    (code : Nat) (e : GError) :
    handlesReleasedOnce (response_received code (initWorld hc sender token)) hc
    ∧ (hc = true → handlesReleasedOnce (cancelled_cb (initWorld hc sender token)) hc)
    ∧ handlesReleasedOnce (call_returned (some e) (initWorld hc sender token)) hc := by
  cases hc <;>
    simp [handlesReleasedOnce, response_received, cancelled_cb, call_returned,
      access_camera_call_free, initWorld]

/-- Witness for C5 on the cancellation exit with a cancellable supplied. -/
theorem C5_handles_released_witness :
    handlesReleasedOnce (cancelled_cb (initWorld true "1_42" "portal17")) true :=
  (C5_handles_released_on_every_exit true "1_42" "portal17" 0 cameraFailedError).2.1 rfl

/-- C1: refuted by the code. On the valid event sequence in which the
`AccessCamera` call's own reply returns first (no transport error) and the
caller's cancellable then fires before any `Response` signal, `cancelled_cb`
frees the call without any `g_task_return_*`: zero outcomes are ever
delivered, and both handler registrations are gone, so no later event can
deliver one. The claim requires exactly one outcome. -/
theorem C1_cancel_after_reply_drops_outcome :
    ValidFrom true (initWorld true "1_42" "portal17")
      [Event.callReturned none, Event.cancelled]
    ∧ (run (initWorld true "1_42" "portal17")
        [Event.callReturned none, Event.cancelled]).delivered = []
    ∧ (run (initWorld true "1_42" "portal17")
        [Event.callReturned none, Event.cancelled]).freed = true
    ∧ (run (initWorld true "1_42" "portal17")
        [Event.callReturned none, Event.cancelled]).subscribed = false
    ∧ (run (initWorld true "1_42" "portal17")
        [Event.callReturned none, Event.cancelled]).connected = false := by
  refine ⟨?_, by decide, by decide, by decide, by decide⟩
  apply ValidFrom.callReturned
  apply ValidFrom.cancelled
  · decide
  · exact ValidFrom.nil false _

/-- C4: refuted by the code. When the cancellable fires before any
`Response` signal, `cancelled_cb` does send the advisory `Close` call to
the request path and does free the call (so a later signal cannot re-fire
the callback), but it returns nothing into the task: no `CanceledByUser`
outcome is delivered locally. If the `AccessCamera` call is still in
flight, its cancelled completion then runs `call_returned` against the
already-freed struct (a use-after-free) to deliver the error. -/
theorem C4_cancelled_cb_delivers_nothing_locally :
    (cancelled_cb (initWorld true "1_42" "portal17")).closeCalls
      = [requestPath REQUEST_PATH_BASE "1_42" "portal17"]
    ∧ (cancelled_cb (initWorld true "1_42" "portal17")).delivered = []
    ∧ (cancelled_cb (initWorld true "1_42" "portal17")).freed = true
    ∧ (cancelled_cb (initWorld true "1_42" "portal17")).subscribed = false
    ∧ ValidFrom true (initWorld true "1_42" "portal17")
        [Event.cancelled, Event.callReturned (some
          { domain := G_IO_ERROR, code := G_IO_ERROR_CANCELLED,
            message := "Operation was cancelled" })]
    ∧ (run (initWorld true "1_42" "portal17")
        [Event.cancelled, Event.callReturned (some
          { domain := G_IO_ERROR, code := G_IO_ERROR_CANCELLED,
            message := "Operation was cancelled" })]).uaf = true := by
  refine ⟨by decide, by decide, by decide, by decide, ?_, by decide⟩
  apply ValidFrom.cancelled
  · decide
  · exact ValidFrom.callReturned _ _ _ (ValidFrom.nil false _)

/-- C7: refuted as stated. The token is rendered from
`g_random_int_range (0, G_MAXINT)` with no uniqueness enforcement, so two
concurrent calls can draw the same integer — 17 is a legal draw for both —
and then their tokens coincide. -/
theorem C7_same_draw_same_token :
    17 < G_MAXINT
    ∧ mkToken 17 = mkToken 17
    ∧ ¬ ((List.map mkToken [17, 17]).Pairwise (fun a b => a ≠ b)) := by
  refine ⟨by decide, rfl, ?_⟩
  intro h
  exact (List.pairwise_cons.mp h).1 (mkToken 17) (by simp) rfl

/-- C7 amended: concurrent start calls that draw pairwise-distinct random
integers produce pairwise-distinct tokens, and the token-to-path map is
injective for a fixed sender, so distinct draws give distinct request
paths. -/
theorem C7_distinct_draws_distinct_paths (r₁ r₂ : Nat) (sender : String)
    (h : r₁ ≠ r₂) :
    mkToken r₁ ≠ mkToken r₂
    ∧ requestPath REQUEST_PATH_BASE sender (mkToken r₁)
        ≠ requestPath REQUEST_PATH_BASE sender (mkToken r₂) := by
  have ht : mkToken r₁ ≠ mkToken r₂ := fun he => h (mkToken_injective he)
  exact ⟨ht, fun hp => ht (requestPath_token_injective _ _ _ _ hp)⟩

/-- Witness for the amended C7 at draws 17 and 18. -/
theorem C7_distinct_draws_witness : (17 : Nat) ≠ 18 ∧ mkToken 17 ≠ mkToken 18 :=
  ⟨by decide, (C7_distinct_draws_distinct_paths 17 18 "1_42" (by decide)).1⟩

/-- C8: `xdp_portal_access_camera_finish` with a result whose source tag
is not `xdp_portal_access_camera`, or a task not valid for the portal,
fails the `g_return_val_if_fail` check loudly and returns FALSE without
decoding or propagating anything. -/
theorem C8_finish_rejects_foreign_results (a : FinishArgs)
    (h : a.sourceTag ≠ SourceTag.accessCameraTag ∨ a.taskValid = false) :
    (xdp_portal_access_camera_finish a).value = false
    ∧ (xdp_portal_access_camera_finish a).errorOut = none
    ∧ (xdp_portal_access_camera_finish a).critical = true := by
  unfold xdp_portal_access_camera_finish
  rcases h with h | h
  · by_cases hp : a.portalValid = false <;> by_cases ht : a.taskValid = false <;>
      simp [hp, ht, h]
  · by_cases hp : a.portalValid = false <;> simp [hp, h]

/-- Witness for C8: a stored success with a foreign source tag is not
propagated. -/
theorem C8_finish_rejects_witness :
    (xdp_portal_access_camera_finish
      { portalValid := true, taskValid := true,
        sourceTag := SourceTag.otherTag "other_start",
        taskOutcome := TaskResult.success true }).value = false :=
  (C8_finish_rejects_foreign_results
    { portalValid := true, taskValid := true,
      sourceTag := SourceTag.otherTag "other_start",
      taskOutcome := TaskResult.success true } (Or.inl (by decide))).1

/-- C9: the pipewire-remote query returns `-1` with a logged warning when
the single synchronous call fails (no error object is propagated), and on
success returns the descriptor obtained by resolving the reply's handle
index against the out-of-band descriptor list. -/
theorem C9_pipewire_remote_fd (e : GError) (idx : Int) (fds : List Int)
    (hidx : 0 ≤ idx) (hlen : idx.toNat < fds.length) :
    xdp_portal_open_pipewire_remote_for_camera true (Except.error e) fds
      = { fd := -1, warned := true }
    ∧ xdp_portal_open_pipewire_remote_for_camera true (Except.ok idx) fds
      = { fd := g_unix_fd_list_get fds idx, warned := false }
    ∧ g_unix_fd_list_get fds idx = fds.get ⟨idx.toNat, hlen⟩ := by
  refine ⟨rfl, rfl, ?_⟩
  simp [g_unix_fd_list_get, hidx, List.getD_eq_getElem?_getD,
    List.getElem?_eq_getElem hlen]

/-- Witness for C9 at index 1 of the descriptor list `[5, 7, 9]`. -/
theorem C9_pipewire_remote_fd_witness :
    xdp_portal_open_pipewire_remote_for_camera true (Except.ok 1) [5, 7, 9]
      = { fd := 7, warned := false } := by
  have h := C9_pipewire_remote_fd cameraFailedError 1 [5, 7, 9] (by decide) (by decide)
  rw [h.2.1, h.2.2]
  decide

/-- C10: the `parent` argument of `xdp_portal_access_camera` is dead: the
observable behaviour is identical for every parent value, the options
dictionary of the `AccessCamera` call holds exactly the one key
`handle_token`, and the action sequence sends exactly that dictionary. -/
theorem C10_parent_argument_unused (portalValid : Bool) (p₁ p₂ : Option XdpParent)
    (hc : Bool) (sender token : String) :
    xdp_portal_access_camera portalValid p₁ hc sender token
      = xdp_portal_access_camera portalValid p₂ hc sender token
    ∧ accessCameraOptions token = [("handle_token", token)]
    ∧ (accessCameraOptions token).length = 1
    ∧ (access_camera_actions hc token).filterMap sentOptions
        = [accessCameraOptions token] := by
  refine ⟨rfl, rfl, rfl, ?_⟩
  cases hc <;> rfl

end Camera
